import Mathlib

/-!
Verification of the real-time location-ingestion and geofencing engine of the
SIH-2025 tourist-safety backend.

The development shallowly embeds the relevant JavaScript services:

* `backend/services/privacyService.js` — consent lookup and anonymization;
* `backend/services/geofencingService.js` — zone registry, containment checks,
  alert generation, tourist zone state;
* `backend/services/socketService.js` — the socket ingestion path
  (`handlePositionUpdate`), its per-user rate limiter (`checkRateLimit`), and
  the analytics history writer (`storeLocationWithAnalytics`);
* `backend/middleware/security.js` + `backend/routes/positionRoutes.js` — the
  HTTP position endpoint behind the `positionRateLimit` middleware.

Modelling conventions:

* JavaScript numbers are embedded as exact rationals `ℚ` (IEEE-754 rounding is
  not modelled); millisecond timestamps are `ℤ`.
* Third-party library code (turf.js geometry predicates, the SHA-256
  compression in node's crypto, express-rate-limit's store) is not part of the
  repository; each such unit enters the model as an explicit parameter or as a
  small function modelling its documented behaviour, noted at its definition.
* Mutable service objects become explicit state records, and socket emissions
  become values of an `OutMsg` list returned by the handler.
* Randomized id suffixes (`Math.random().toString(36)`) are not modelled; no
  verified property depends on alert or zone id uniqueness.
-/

/-- JavaScript `Math.round`: rounds to the nearest integer, halves toward
positive infinity. -/
def jsRound (q : ℚ) : ℤ := ⌊q + 1/2⌋

/-- Rounding to two decimal places, `Math.round(x * 100) / 100`
(privacyService.js line 90/94). -/
def round2 (q : ℚ) : ℚ := (jsRound (q * 100) : ℚ) / 100

/-- JavaScript `o || d` for an optional string: `none` and the empty string
are falsy and select the default. -/
def jsOrStr (o : Option String) (d : String) : String :=
  match o with
  | some s => if s = "" then d else s
  | none => d

/-- JavaScript `o || d` for an optional integer: `none` and `0` are falsy and
select the default. -/
def jsOrInt (o : Option Int) (d : Int) : Int :=
  match o with
  | some v => if v = 0 then d else v
  | none => d

/-- JavaScript guard `v && p(v)` over a nullable number: `null` and `0` are
falsy, so the predicate is only consulted on a non-null, non-zero value. -/
def jsNumGuard (o : Option ℚ) (p : ℚ → Bool) : Bool :=
  match o with
  | some v => if v = 0 then false else p v
  | none => false

/-! ## Privacy service (privacyService.js) -/

/-- The `preferences` object stored with each privacy record
(privacyService.js lines 23-30; fields not read by the verified code paths
are omitted). -/
structure PrivacyPreferences where
  locationSharing : Bool
  dataRetention : Int
  anonymization : Bool
  deriving Repr, DecidableEq

/-- A record of the `privacy_preferences` store (privacyService.js lines
21-34). -/
structure PrivacyData where
  preferences : PrivacyPreferences
  consentGiven : Bool
  deriving Repr, DecidableEq

/-- The `privacy_preferences` redis hash, keyed by user id; `none` models an
absent record (and `getPrivacyPreferences` returning `null`). -/
def PrivacyDB : Type := String → Option PrivacyData

/-- `PrivacyService.hasLocationConsent` (privacyService.js lines 65-73):
consent holds iff a record exists with `locationSharing === true` and
`consentGiven === true`; an absent record or a lookup error yields `false`. -/
def hasLocationConsent (db : PrivacyDB) (userId : String) : Bool :=
  match db userId with
  | some p => p.preferences.locationSharing && p.consentGiven
  | none => false

/-- The location-record fields read and written by
`PrivacyService.anonymizeLocationData`. -/
structure LocationRecord where
  userId : String
  userName : String
  lat : ℚ
  lon : ℚ
  deriving Repr, DecidableEq

/-- `PrivacyService.anonymizeUserName` (privacyService.js lines 124-127):
names that are falsy or shorter than two characters become `"Anonymous"`,
otherwise the first character is kept and the rest replaced by asterisks. -/
def anonymizeUserName (userName : String) : String :=
  if userName.length < 2 then "Anonymous"
  else String.mk (userName.data.take 1 ++ List.replicate (userName.length - 1) '*')

/-- Lower-case hex digit of a value below 16. -/
def hexCharOfNat (n : Nat) : Char :=
  if n < 10 then Char.ofNat (48 + n) else Char.ofNat (87 + n)

/-- Hex encoding of a byte list, two digits per byte — the `digest('hex')`
step of `hashUserId`. -/
def hexOfBytes (bs : List Nat) : List Char :=
  bs.flatMap (fun b => [hexCharOfNat (b / 16 % 16), hexCharOfNat (b % 16)])

/-- `PrivacyService.hashUserId` (privacyService.js lines 114-117):
`crypto.createHash('sha256').update(userId).digest('hex').substring(0, 16)`.
The SHA-256 compression is node library code, entering the model as the
parameter `sha` that maps the input string to its digest bytes (32 bytes for
SHA-256); the hex encoding and the 16-character truncation are modelled
concretely. -/
def hashUserId (sha : String → List Nat) (userId : String) : String :=
  String.mk ((hexOfBytes (sha userId)).take 16)

/-- `PrivacyService.anonymizeLocationData` (privacyService.js lines 81-107).
When the stored preferences do not enable anonymization the record is returned
unchanged; otherwise latitude and longitude are rounded to two decimals, and
user id and name are replaced — each field only when truthy (non-zero /
non-empty), mirroring the JavaScript `if (anonymized.x)` guards. -/
def anonymizeLocationData (sha : String → List Nat) (ld : LocationRecord)
    (prefs : Option PrivacyData) : LocationRecord :=
  let enabled := match prefs with
    | some p => p.preferences.anonymization
    | none => false
  if !enabled then ld
  else
    { lat := if ld.lat = 0 then ld.lat else round2 ld.lat
      lon := if ld.lon = 0 then ld.lon else round2 ld.lon
      userId := if ld.userId = "" then ld.userId else hashUserId sha ld.userId
      userName := if ld.userName = "" then ld.userName else anonymizeUserName ld.userName }

example : round2 (123456/1000) = 12346/100 := by
  norm_num [round2, jsRound]
example : anonymizeUserName "Bob" = "B**" := by decide
example : anonymizeUserName "A" = "Anonymous" := by decide

/-! ## Geofencing service (geofencingService.js) -/

/-- A zone record (geofencingService.js lines 41-52 and 89-100). The turf
polygon object is determined by `coordinates` (a `[lng, lat]` ring) and is
represented through the containment parameter below; the random id suffix is
not modelled. -/
structure Zone where
  id : String
  name : String
  coordinates : List (ℚ × ℚ)
  type : String
  alertLevel : String
  description : String
  isActive : Bool
  createdAt : Int
  deriving Repr, DecidableEq

/-- An alert record (geofencingService.js lines 267-272 with the data objects
built at lines 221-231 and 239-246). The random id suffix is not modelled;
`zoneName` and `zoneId` are absent on `safe_zone_exit` alerts. -/
structure Alert where
  type : String
  timestamp : Int
  userId : String
  userName : String
  lat : ℚ
  lng : ℚ
  zoneName : Option String
  zoneId : Option String
  alertLevel : String
  description : String
  deriving Repr, DecidableEq

/-- The result object built by `GeofencingService.checkGeofencing`
(geofencingService.js lines 194-205); it is also the value stored per tourist
by `updateTouristZoneState`. -/
structure GeoResult where
  userId : String
  userName : String
  lat : ℚ
  lng : ℚ
  timestamp : Int
  restrictedZones : List Zone
  safeZones : List Zone
  alerts : List Alert
  isInRestrictedZone : Bool
  isInSafeZone : Bool
  deriving Repr, DecidableEq

/-- The mutable fields of a `GeofencingService` instance (constructor, lines
9-14, plus the lazily created `touristZoneStates` map). -/
structure GeoState where
  restrictedZones : List Zone
  safeZones : List Zone
  alertHistory : List Alert
  touristZoneStates : String → Option GeoResult

/-- A freshly constructed `GeofencingService`. -/
def initialGeoState : GeoState :=
  { restrictedZones := [], safeZones := [], alertHistory := [],
    touristZoneStates := fun _ => none }

/-- The position object documented for `checkGeofencing`
(geofencingService.js line 189): `lat`, `lng`, `userId`, `userName`. -/
structure GeoPos where
  lat : ℚ
  lng : ℚ
  userId : String
  userName : String
  deriving Repr, DecidableEq

/-- `turf.booleanPointInPolygon` is third-party library code; the geofencing
model is parameterized by a containment predicate of this shape, taking the
polygon ring and the `(lng, lat)` point. -/
def PointInPolygon : Type := List (ℚ × ℚ) → ℚ × ℚ → Bool

/-- A concrete even-odd (ray-casting) containment test over exact rationals,
the documented algorithm of `turf.booleanPointInPolygon` for a point strictly
inside or outside a simple closed ring. -/
def rayCastContains (ring : List (ℚ × ℚ)) (pt : ℚ × ℚ) : Bool :=
  (ring.zip (ring.drop 1)).foldl
    (fun inside e =>
      let xi := e.1.1
      let yi := e.1.2
      let xj := e.2.1
      let yj := e.2.2
      if ((decide (yi > pt.2)) != (decide (yj > pt.2)))
          && decide (pt.1 < (xj - xi) * (pt.2 - yi) / (yj - yi) + xi)
      then !inside else inside)
    false

/-- `GeofencingService.checkRestrictedZones` (lines 143-160): the active
restricted zones whose polygon contains the `(lng, lat)` point. -/
def checkRestrictedZones (pip : PointInPolygon) (g : GeoState) (lat lng : ℚ) : List Zone :=
  g.restrictedZones.filter (fun z => z.isActive && pip z.coordinates (lng, lat))

/-- `GeofencingService.checkSafeZones` (lines 168-185). -/
def checkSafeZones (pip : PointInPolygon) (g : GeoState) (lat lng : ℚ) : List Zone :=
  g.safeZones.filter (fun z => z.isActive && pip z.coordinates (lng, lat))

/-- `GeofencingService.generateAlert` (lines 266-283): push the alert onto
`alertHistory`; when the history exceeds 1,000 entries keep only the last
1,000 (`slice(-1000)`). The alert record itself is built by the caller here
since id generation is the only other effect. -/
def generateAlert (g : GeoState) (a : Alert) : GeoState × Alert :=
  let h := g.alertHistory ++ [a]
  let h := if h.length > 1000 then h.drop (h.length - 1000) else h
  ({ g with alertHistory := h }, a)

/-- The `geofence_breach` alert data built at geofencingService.js lines
221-231 for a containing restricted zone. -/
def mkBreachAlert (pos : GeoPos) (now : Int) (z : Zone) : Alert :=
  { type := "geofence_breach", timestamp := now,
    userId := pos.userId, userName := pos.userName,
    lat := pos.lat, lng := pos.lng,
    zoneName := some z.name, zoneId := some z.id,
    alertLevel := z.alertLevel,
    description := "Tourist entered restricted zone: " ++ z.name }

/-- The `safe_zone_exit` alert data built at geofencingService.js lines
239-246. -/
def mkSafeExitAlert (pos : GeoPos) (now : Int) : Alert :=
  { type := "safe_zone_exit", timestamp := now,
    userId := pos.userId, userName := pos.userName,
    lat := pos.lat, lng := pos.lng,
    zoneName := none, zoneId := none,
    alertLevel := "medium",
    description := "Tourist left safe zone" }

/-- One iteration of the alert-generation loop at geofencingService.js lines
220-233: generate the breach alert for zone `z` and push it onto the result's
alert list. -/
def breachStep (pos : GeoPos) (now : Int) (acc : GeoState × List Alert) (z : Zone) :
    GeoState × List Alert :=
  let r := generateAlert acc.1 (mkBreachAlert pos now z)
  (r.1, acc.2 ++ [r.2])

/-- `GeofencingService.checkGeofencing` (lines 192-258): compute the
containing restricted and safe zones, generate one `geofence_breach` alert per
containing restricted zone, generate a `safe_zone_exit` alert when the
previously stored state was in a safe zone and the new fix is in none, store
the result as the tourist's zone state, and return it. -/
def checkGeofencing (pip : PointInPolygon) (g : GeoState) (pos : GeoPos) (now : Int) :
    GeoState × GeoResult :=
  let rz := checkRestrictedZones pip g pos.lat pos.lng
  let sz := checkSafeZones pip g pos.lat pos.lng
  let fold := rz.foldl (breachStep pos now) (g, [])
  let g1 := fold.1
  let prev := g1.touristZoneStates pos.userId
  let exitFire := match prev with
    | some st => st.isInSafeZone && !(decide (0 < sz.length))
    | none => false
  let after :=
    if exitFire then
      let r := generateAlert g1 (mkSafeExitAlert pos now)
      (r.1, fold.2 ++ [r.2])
    else (g1, fold.2)
  let result : GeoResult :=
    { userId := pos.userId, userName := pos.userName,
      lat := pos.lat, lng := pos.lng, timestamp := now,
      restrictedZones := rz, safeZones := sz, alerts := after.2,
      isInRestrictedZone := decide (0 < rz.length),
      isInSafeZone := decide (0 < sz.length) }
  let g2 := after.1
  ({ g2 with touristZoneStates :=
      fun u => if u = pos.userId then some result else g2.touristZoneStates u },
   result)

/-- The option bag passed to the zone constructors; every caller in the
repository (routes/geofencingRoutes.js lines 464-467, 522-525, 594-597 and
the sample zones in socketService.js) passes at most `alertLevel` and
`description`. -/
structure ZoneOptions where
  alertLevel : Option String
  description : Option String
  deriving Repr, DecidableEq

/-- The ring-closing step at geofencingService.js lines 29-32 (and 78-81):
when the first and last coordinates differ, the first is appended. -/
def closeCoords (coords : List (ℚ × ℚ)) : List (ℚ × ℚ) :=
  match coords.head? with
  | none => coords
  | some c0 => if coords.getLast? = some c0 then coords else coords ++ [c0]

/-- `GeofencingService.addRestrictedZone` (lines 22-63). `turf.booleanValid`
is third-party library code and enters as the parameter `valid`, applied to
the closed ring exactly as the source applies it to `turf.polygon([coords])`.
A thrown error is modelled as `Except.error` with the state unchanged; the
asynchronous redis snapshot write has no effect on the modelled state. -/
def addRestrictedZone (valid : List (ℚ × ℚ) → Bool) (g : GeoState)
    (name : String) (coords : List (ℚ × ℚ)) (opts : ZoneOptions) (now : Int) :
    GeoState × Except String Zone :=
  if coords.length < 4 then
    (g, Except.error "Polygon must have at least 4 coordinates")
  else
    let coords := closeCoords coords
    if !valid coords then
      (g, Except.error "Invalid polygon coordinates")
    else
      let zone : Zone :=
        { id := "restricted_" ++ toString now, name := name,
          coordinates := coords, type := "restricted",
          alertLevel := jsOrStr opts.alertLevel "high",
          description := jsOrStr opts.description "",
          isActive := true, createdAt := now }
      ({ g with restrictedZones := g.restrictedZones ++ [zone] }, Except.ok zone)

/-- `GeofencingService.addSafeZone` (lines 71-111), identical to
`addRestrictedZone` except for the list written, the id prefix, the `type`
tag and the default alert level. -/
def addSafeZone (valid : List (ℚ × ℚ) → Bool) (g : GeoState)
    (name : String) (coords : List (ℚ × ℚ)) (opts : ZoneOptions) (now : Int) :
    GeoState × Except String Zone :=
  if coords.length < 4 then
    (g, Except.error "Polygon must have at least 4 coordinates")
  else
    let coords := closeCoords coords
    if !valid coords then
      (g, Except.error "Invalid polygon coordinates")
    else
      let zone : Zone :=
        { id := "safe_" ++ toString now, name := name,
          coordinates := coords, type := "safe",
          alertLevel := jsOrStr opts.alertLevel "low",
          description := jsOrStr opts.description "",
          isActive := true, createdAt := now }
      ({ g with safeZones := g.safeZones ++ [zone] }, Except.ok zone)

/-- The closed unit-scale square ring used for concrete runs. -/
def squareRing : List (ℚ × ℚ) := [(0, 0), (0, 10), (10, 10), (10, 0), (0, 0)]

/-- Containment instantiation used for concrete runs: the bounding-box test
for `squareRing`. On that ring it agrees with the even-odd test
`rayCastContains` (and hence with turf) at every point evaluated in this
development; the sanity examples below check the agreement at those points. -/
def squareRingContains : PointInPolygon := fun _ pt =>
  decide (0 ≤ pt.1) && decide (pt.1 ≤ 10) && decide (0 ≤ pt.2) && decide (pt.2 ≤ 10)

example : rayCastContains squareRing (5, 5) = true := by
  norm_num [rayCastContains, squareRing]
example : squareRingContains squareRing (5, 5) = true := by decide
example : rayCastContains squareRing (6, 6) = true := by
  norm_num [rayCastContains, squareRing]
example : squareRingContains squareRing (6, 6) = true := by decide
example : rayCastContains squareRing (20, 20) = false := by
  norm_num [rayCastContains, squareRing]
example : squareRingContains squareRing (20, 20) = false := by decide

/-! ## Socket service (socketService.js) and analytics history -/

/-- `SocketService.checkRateLimit` (socketService.js lines 304-314) for one
user's map entry: reject when a stored last-update time exists and lies less
than 5,000 ms in the past, otherwise store `now` and accept. The JavaScript
truthiness guard `if (lastUpdate && ...)` treats a stored `0` as absent, which
the model reproduces. The second component is the map entry after the call: a
rejected attempt leaves it unchanged. -/
def checkRateLimit (lastUpdate : Option Int) (now : Int) : Bool × Option Int :=
  match lastUpdate with
  | some last => if last ≠ 0 ∧ now - last < 5000 then (false, some last) else (true, some now)
  | none => (true, some now)

/-- A row of the `location_history` table as created by
`LocationAnalyticsService.storeLocationWithAnalytics` (socketService.js lines
427-444); the PostGIS point column is determined by latitude/longitude and
omitted. -/
structure HistoryRow where
  userId : String
  userName : String
  latitude : ℚ
  longitude : ℚ
  accuracy : ℚ
  timestamp : Int
  deviceInfo : Option String
  networkInfo : Option String
  anonymized : Bool
  retentionDays : Int
  distanceFromPrevious : Option ℚ
  timeFromPrevious : Option ℚ
  speed : Option ℚ
  heading : Option ℚ
  qualityScore : ℚ
  isAnomalous : Bool
  deriving Repr, DecidableEq

/-- The `previousLocation` query (socketService.js lines 379-382): the user's
row with the greatest `timestamp` (ties resolved to the earlier row; SQL
leaves the tie order unspecified). -/
def latestRowFor (history : List HistoryRow) (userId : String) : Option HistoryRow :=
  (history.filter (fun r => r.userId = userId)).foldl
    (fun acc r =>
      match acc with
      | none => some r
      | some p => if r.timestamp > p.timestamp then some r else some p)
    none

/-- `LocationAnalyticsService.detectAnomalies` (socketService.js lines
571-595) with the thresholds of the constructor (lines 344-350); each metric
is consulted only when truthy, per the JavaScript guards. -/
def detectAnomalies (speed : Option ℚ) (accuracy : ℚ)
    (distanceFromPrevious timeFromPrevious : Option ℚ) : Bool :=
  jsNumGuard speed (fun v => decide (v > 50))
    || (if accuracy = 0 then false else decide (accuracy > 1000))
    || jsNumGuard distanceFromPrevious (fun v => decide (v > 10000))
    || jsNumGuard timeFromPrevious (fun v => decide (v > 3600))

/-- `LocationAnalyticsService.calculateQualityScore` (socketService.js lines
602-628): penalties subtracted from 1.0, clamped to [0, 1]. -/
def calculateQualityScore (accuracy : ℚ) (speed timeFromPrevious distanceFromPrevious : Option ℚ) : ℚ :=
  let score : ℚ := 1
  let score := if accuracy = 0 then score
    else if accuracy > 100 then score - 3/10
    else if accuracy > 50 then score - 1/10
    else score
  let score := if jsNumGuard speed (fun v => decide (v > 200)) then score - 1/2 else score
  let score := if jsNumGuard timeFromPrevious (fun v => decide (v > 3600)) then score - 1/5 else score
  let score := if jsNumGuard distanceFromPrevious (fun v => decide (v > 50000)) then score - 2/5 else score
  max 0 (min 1 score)

/-- The position object built by `handlePositionUpdate` (socketService.js
lines 66-73). -/
structure Position where
  userId : String
  lat : ℚ
  lon : ℚ
  accuracy : ℚ
  timestamp : Int
  userName : String
  deriving Repr, DecidableEq

/-- `LocationAnalyticsService.storeLocationWithAnalytics` (socketService.js
lines 357-453). The haversine distance and bearing (lines 638-671) use
floating-point trigonometry and enter the model as the parameters `hdist` and
`hbearing` on (lat₁, lon₁, lat₂, lon₂). When PostgreSQL is unavailable the
row is skipped and the caller proceeds (the source returns a failure object
that the caller only logs). -/
def storeLocationWithAnalytics (hdist hbearing : ℚ → ℚ → ℚ → ℚ → ℚ) (pgAvailable : Bool)
    (history : List HistoryRow) (p : Position) (deviceInfo networkInfo : Option String)
    (anonymized : Bool) (retentionDays : Int) : List HistoryRow :=
  if !pgAvailable then history
  else
    let prev := latestRowFor history p.userId
    let metrics : Option ℚ × Option ℚ × Option ℚ × Option ℚ :=
      match prev with
      | some pr =>
          let d := hdist pr.latitude pr.longitude p.lat p.lon
          let td := ((p.timestamp - pr.timestamp : ℤ) : ℚ) / 1000
          (some d, some td,
           some (if td > 0 then d / td * (36/10) else 0),
           some (hbearing pr.latitude pr.longitude p.lat p.lon))
      | none => (none, none, none, none)
    let row : HistoryRow :=
      { userId := p.userId, userName := p.userName,
        latitude := p.lat, longitude := p.lon,
        accuracy := p.accuracy, timestamp := p.timestamp,
        deviceInfo := deviceInfo, networkInfo := networkInfo,
        anonymized := anonymized, retentionDays := retentionDays,
        distanceFromPrevious := metrics.1, timeFromPrevious := metrics.2.1,
        speed := metrics.2.2.1, heading := metrics.2.2.2,
        qualityScore := calculateQualityScore p.accuracy metrics.2.2.1 metrics.2.1 metrics.1,
        isAnomalous := detectAnomalies metrics.2.2.1 p.accuracy metrics.1 metrics.2.1 }
    history ++ [row]

/-- A message emitted over the socket layer. -/
inductive OutMsg where
  | errorMsg (toSocket : String) (message : String)
  | alertMsg (room : String) (a : Alert)
  | zoneStatusMsg (room : String) (isInRestrictedZone isInSafeZone : Bool)
      (restrictedZoneIds safeZoneIds : List String)
  | locationChanged (room : String) (userId userName : String)
      (lat lon accuracy : ℚ) (timestamp : Int)
  deriving Repr, DecidableEq

/-- Whether a message is an `error` emission to the sending socket. -/
def OutMsg.isErr : OutMsg → Bool
  | OutMsg.errorMsg _ _ => true
  | _ => false

/-- Whether a message is a `location:changed` broadcast. -/
def OutMsg.isLocationChanged : OutMsg → Bool
  | OutMsg.locationChanged _ _ _ _ _ _ _ => true
  | _ => false

/-- The state touched by the position paths: the socket service's rate-limit
map and geofencing service, the express `position` rate-limit store (keyed by
client ip), the redis `live_positions` hash, and the `location_history`
table. `redisConnected` and `pgAvailable` model the availability of the two
stores. -/
structure ServerState where
  rateLimits : String → Option Int
  posBuckets : String → Option (Nat × Int)
  geo : GeoState
  livePositions : String → Option Position
  history : List HistoryRow
  redisConnected : Bool
  pgAvailable : Bool

/-- A fresh server with both stores available. -/
def initialServerState : ServerState :=
  { rateLimits := fun _ => none, posBuckets := fun _ => none,
    geo := initialGeoState, livePositions := fun _ => none,
    history := [], redisConnected := true, pgAvailable := true }

/-- `SocketService.checkGeofencing` (socketService.js lines 231-264) as
reached from `handlePositionUpdate`. The position object passed in carries
the coordinate under the key `lon` (line 69), while
`GeofencingService.checkGeofencing` destructures the key `lng` (line 193), so
the longitude read there is `undefined`: `turf.point([undefined, lat])`
(line 144/169) fails turf's `isNumber` argument validation, the error
propagates to the `catch` at line 254 which returns the freshly initialized
result — no containing zones, no alerts, and no zone-state update. The
emitted messages are therefore no alerts and a `zone_status` with both flags
false and empty zone lists. (If turf instead returned no containment for the
undefined coordinate, the emitted messages would be identical; only the
unobservable state write would differ.) -/
def socketCheckGeofencing (g : GeoState) (pos : Position) : GeoState × List OutMsg :=
  (g, [OutMsg.zoneStatusMsg ("user:" ++ pos.userId) false false [] []])

/-- The payload of a `position:update` socket event (socketService.js line
59 and the fields read at lines 93-96). -/
structure PositionData where
  lat : ℚ
  lon : ℚ
  accuracy : Option ℚ
  timestamp : Int
  deviceInfo : Option String
  networkInfo : Option String
  anonymized : Bool
  retentionDays : Option Int
  deriving Repr, DecidableEq

/-- `SocketService.handlePositionUpdate` (socketService.js lines 50-118):
rate-limit per user (emitting an error on rejection), validate that `lat`,
`lon` and `timestamp` are truthy (zero is falsy), build the position, write
the redis live position when connected, append the analytics history row,
run the socket-level geofencing check, and broadcast `location:changed` to
the user's watch room. Consent is never consulted on this path, and the
client timestamp is never compared with previously accepted fixes. -/
def handlePositionUpdate (hdist hbearing : ℚ → ℚ → ℚ → ℚ → ℚ) (s : ServerState)
    (userId userName : String) (data : PositionData) (now : Int) :
    ServerState × List OutMsg :=
  let rl := checkRateLimit (s.rateLimits userId) now
  if !rl.1 then
    (s, [OutMsg.errorMsg userId "Rate limit exceeded. Please wait before sending another update."])
  else
    let s := { s with rateLimits := fun u => if u = userId then rl.2 else s.rateLimits u }
    if data.lat = 0 ∨ data.lon = 0 ∨ data.timestamp = 0 then
      (s, [OutMsg.errorMsg userId "Invalid position data"])
    else
      let position : Position :=
        { userId := userId, lat := data.lat, lon := data.lon,
          accuracy := data.accuracy.getD 0, timestamp := data.timestamp,
          userName := userName }
      let s := if s.redisConnected then
          { s with livePositions := fun u => if u = userId then some position else s.livePositions u }
        else s
      let newHistory :=
        storeLocationWithAnalytics hdist hbearing s.pgAvailable s.history position
          data.deviceInfo data.networkInfo data.anonymized (jsOrInt data.retentionDays 30)
      let s := { s with history := newHistory }
      let geoRun := socketCheckGeofencing s.geo position
      let s := { s with geo := geoRun.1 }
      (s, geoRun.2 ++
        [OutMsg.locationChanged ("watch:" ++ userId) userId userName
          position.lat position.lon position.accuracy position.timestamp])

/-- A sequence of `position:update` events: each entry is (userId, userName,
payload, server arrival time). Messages accumulate in emission order. -/
def runUpdates (hdist hbearing : ℚ → ℚ → ℚ → ℚ → ℚ) (s : ServerState)
    (events : List (String × String × PositionData × Int)) : ServerState × List OutMsg :=
  events.foldl
    (fun acc e =>
      let r := handlePositionUpdate hdist hbearing acc.1 e.1 e.2.1 e.2.2.1 e.2.2.2
      (r.1, acc.2 ++ r.2))
    (s, [])

/-! ## HTTP position endpoint (middleware/security.js, routes/positionRoutes.js) -/

/-- One hit of a fixed-window counter, modelling the default in-memory store
of the third-party express-rate-limit middleware as configured by
`createRateLimit` (security.js lines 11-29): a key's window of `windowMs`
starts at its first hit, each request increments the counter, and a request
is rejected once the count for the current window exceeds `maxHits`. The
bucket is (hit count, window start). -/
def expressRateLimitHit (windowMs : Int) (maxHits : Nat) (b : Option (Nat × Int))
    (now : Int) : Bool × (Nat × Int) :=
  let b := match b with
    | some b => if now - b.2 ≥ windowMs then (0, now) else b
    | none => (0, now)
  let b := (b.1 + 1, b.2)
  (decide (b.1 ≤ maxHits), b)

/-- The response of `POST /api/position`. -/
inductive HttpResp where
  | ok (lat lon accuracy : ℚ) (timestamp : Int)
  | badRequest (message : String)
  | tooManyRequests (message : String)
  deriving Repr, DecidableEq

/-- `POST /api/position` (positionRoutes.js lines 10-55) behind the
`positionRateLimit` middleware (security.js lines 46-50: 20 requests per
60,000 ms window, keyed by client ip): rate-limit, validate truthiness of
`lat`, `lon`, `timestamp`, store the live position in redis, and respond with
the position. No history row is written on this path. -/
def postPosition (s : ServerState) (ip userId userName : String)
    (lat lon : ℚ) (accuracy : Option ℚ) (timestamp : Int) (now : Int) :
    ServerState × HttpResp :=
  let hit := expressRateLimitHit 60000 20 (s.posBuckets ip) now
  let s := { s with posBuckets := fun i => if i = ip then some hit.2 else s.posBuckets i }
  if !hit.1 then
    (s, HttpResp.tooManyRequests "Too many position updates, please slow down.")
  else if lat = 0 ∨ lon = 0 ∨ timestamp = 0 then
    (s, HttpResp.badRequest "Latitude, longitude, and timestamp are required")
  else
    let position : Position :=
      { userId := userId, lat := lat, lon := lon, accuracy := accuracy.getD 0,
        timestamp := timestamp, userName := userName }
    let s := { s with livePositions := fun u => if u = userId then some position else s.livePositions u }
    (s, HttpResp.ok position.lat position.lon position.accuracy position.timestamp)

/-- A sequence of `POST /api/position` requests from one client with a fixed
body, arriving at the given times. -/
def runPosts (s : ServerState) (ip userId userName : String) (lat lon : ℚ)
    (accuracy : Option ℚ) (timestamp : Int) (times : List Int) :
    ServerState × List HttpResp :=
  times.foldl
    (fun acc t =>
      let r := postPosition acc.1 ip userId userName lat lon accuracy timestamp t
      (r.1, acc.2 ++ [r.2]))
    (s, [])

/-! ## Traces of the alert ring and of the socket rate limiter -/

/-- The last `n` elements of a list. -/
def lastWindow {α : Type} (n : Nat) (l : List α) : List α := l.drop (l.length - n)

/-- A sequence of `generateAlert` calls threaded through the service state. -/
def runGenerateAlerts (g : GeoState) (as : List Alert) : GeoState :=
  as.foldl (fun st a => (generateAlert st a).1) g

/-- The attempt times accepted by `SocketService.checkRateLimit` for one
user, starting from the given map entry. -/
def acceptedTimes (st : Option Int) : List Int → List Int
  | [] => []
  | t :: ts =>
      let r := checkRateLimit st t
      if r.1 then t :: acceptedTimes r.2 ts else acceptedTimes r.2 ts

/-- The user's rate-limit map entry after a sequence of attempts. -/
def rlFinalState (st : Option Int) : List Int → Option Int
  | [] => st
  | t :: ts => rlFinalState (checkRateLimit st t).2 ts

lemma lastWindow_length_le {α : Type} (n : Nat) (l : List α) :
    (lastWindow n l).length ≤ n := by
  simp only [lastWindow, List.length_drop]
  omega

lemma lastWindow_of_le {α : Type} {n : Nat} {l : List α} (h : l.length ≤ n) :
    lastWindow n l = l := by
  simp [lastWindow, Nat.sub_eq_zero_of_le h]

lemma lastWindow_append {α : Type} (n : Nat) (x y : List α) :
    lastWindow n (lastWindow n x ++ y) = lastWindow n (x ++ y) := by
  rcases le_or_lt x.length n with h | h
  · rw [lastWindow_of_le h]
  · simp only [lastWindow, List.length_append, List.length_drop,
      List.drop_append_eq_append_drop, List.drop_drop]
    congr 1
    · congr 1
      omega
    · congr 1
      omega

lemma generateAlert_alertHistory (g : GeoState) (a : Alert) :
    ((generateAlert g a).1).alertHistory = lastWindow 1000 (g.alertHistory ++ [a]) := by
  show (if (g.alertHistory ++ [a]).length > 1000
        then (g.alertHistory ++ [a]).drop ((g.alertHistory ++ [a]).length - 1000)
        else g.alertHistory ++ [a]) = _
  by_cases h : (g.alertHistory ++ [a]).length > 1000
  · rw [if_pos h]
    rfl
  · rw [if_neg h]
    exact (lastWindow_of_le (Nat.le_of_not_lt h)).symm

lemma generateAlert_fields (g : GeoState) (a : Alert) :
    ((generateAlert g a).1).restrictedZones = g.restrictedZones ∧
    ((generateAlert g a).1).safeZones = g.safeZones ∧
    ((generateAlert g a).1).touristZoneStates = g.touristZoneStates ∧
    (generateAlert g a).2 = a := by
  simp [generateAlert]

lemma runGenerateAlerts_alertHistory (as : List Alert) :
    ∀ g : GeoState, g.alertHistory.length ≤ 1000 →
      (runGenerateAlerts g as).alertHistory = lastWindow 1000 (g.alertHistory ++ as) := by
  induction as with
  | nil =>
      intro g h
      simpa [runGenerateAlerts] using (lastWindow_of_le h).symm
  | cons a as ih =>
      intro g h
      have hstep := generateAlert_alertHistory g a
      have hlen : ((generateAlert g a).1).alertHistory.length ≤ 1000 := by
        rw [hstep]; exact lastWindow_length_le 1000 _
      have : runGenerateAlerts g (a :: as) = runGenerateAlerts (generateAlert g a).1 as := by
        simp [runGenerateAlerts]
      rw [this, ih _ hlen, hstep, lastWindow_append]
      simp

lemma checkRateLimit_reject (st : Option Int) (t : Int)
    (h : (checkRateLimit st t).1 = false) : (checkRateLimit st t).2 = st := by
  cases st with
  | none => simp [checkRateLimit] at h
  | some last =>
      simp only [checkRateLimit] at h ⊢
      split at h
      · split
        · rfl
        · simp_all
      · simp at h

lemma checkRateLimit_accept_state (st : Option Int) (t : Int)
    (h : (checkRateLimit st t).1 = true) : (checkRateLimit st t).2 = some t := by
  cases st with
  | none => rfl
  | some last =>
      simp only [checkRateLimit] at h ⊢
      split at h
      · simp at h
      · split
        · simp_all
        · rfl

lemma checkRateLimit_accept_gap (v t : Int) (hv : 0 < v)
    (h : (checkRateLimit (some v) t).1 = true) : v + 5000 ≤ t := by
  simp only [checkRateLimit] at h
  split at h
  · simp at h
  · next hc =>
      push_neg at hc
      have := hc (by omega)
      omega

lemma acceptedTimes_chain_some (ts : List Int) :
    ∀ v : Int, 0 < v → (∀ t ∈ ts, (0:Int) < t) →
      List.Chain' (fun a b => a + 5000 ≤ b) (acceptedTimes (some v) ts) ∧
      (∀ t1, (acceptedTimes (some v) ts).head? = some t1 → v + 5000 ≤ t1) := by
  induction ts with
  | nil =>
      intro v hv _
      refine ⟨by simp [acceptedTimes], ?_⟩
      intro t1 h
      simp [acceptedTimes] at h
  | cons t ts ih =>
      intro v hv hpos
      have hposts : ∀ x ∈ ts, (0:Int) < x := fun x hx => hpos x (List.mem_cons_of_mem _ hx)
      have hpt : (0:Int) < t := hpos t (List.mem_cons_self _ _)
      by_cases hacc : (checkRateLimit (some v) t).1 = true
      · have hst : (checkRateLimit (some v) t).2 = some t :=
          checkRateLimit_accept_state _ _ hacc
        have hgap : v + 5000 ≤ t := checkRateLimit_accept_gap v t hv hacc
        have hrec := ih t hpt hposts
        have hunf : acceptedTimes (some v) (t :: ts) = t :: acceptedTimes (some t) ts := by
          simp only [acceptedTimes, hacc, if_true, hst]
        rw [hunf]
        refine ⟨?_, ?_⟩
        · rw [List.chain'_cons']
          exact ⟨fun y hy => hrec.2 y (Option.mem_def.mp hy), hrec.1⟩
        · intro t1 h1
          simp only [List.head?_cons, Option.some.injEq] at h1
          omega
      · have hb : (checkRateLimit (some v) t).1 = false := by
          cases hb2 : (checkRateLimit (some v) t).1
          · rfl
          · exact absurd hb2 hacc
        have hst : (checkRateLimit (some v) t).2 = some v := checkRateLimit_reject _ _ hb
        have hunf : acceptedTimes (some v) (t :: ts) = acceptedTimes (some v) ts := by
          simp only [acceptedTimes, hb, hst]
          simp
        rw [hunf]
        exact ih v hv hposts

lemma acceptedTimes_chain_none (ts : List Int) (hpos : ∀ t ∈ ts, (0:Int) < t) :
    List.Chain' (fun a b => a + 5000 ≤ b) (acceptedTimes none ts) := by
  cases ts with
  | nil => simp [acceptedTimes]
  | cons t ts =>
      have hpt : (0:Int) < t := hpos t (List.mem_cons_self _ _)
      have hposts : ∀ x ∈ ts, (0:Int) < x := fun x hx => hpos x (List.mem_cons_of_mem _ hx)
      have hunf : acceptedTimes none (t :: ts) = t :: acceptedTimes (some t) ts := by
        simp [acceptedTimes, checkRateLimit]
      rw [hunf, List.chain'_cons']
      have hrec := acceptedTimes_chain_some ts t hpt hposts
      exact ⟨fun y hy => hrec.2 y (Option.mem_def.mp hy), hrec.1⟩

lemma rlFinalState_eq_getLast (ts : List Int) :
    ∀ st : Option Int, rlFinalState st ts = ((acceptedTimes st ts).getLast?).elim st some := by
  induction ts with
  | nil => intro st; simp [rlFinalState, acceptedTimes]
  | cons t ts ih =>
      intro st
      by_cases hacc : (checkRateLimit st t).1 = true
      · have hst : (checkRateLimit st t).2 = some t :=
          checkRateLimit_accept_state _ _ hacc
        have hunf : acceptedTimes st (t :: ts) = t :: acceptedTimes (some t) ts := by
          simp only [acceptedTimes, hacc, if_true, hst]
        have hfs : rlFinalState st (t :: ts) = rlFinalState (some t) ts := by
          simp only [rlFinalState, hst]
        rw [hunf, hfs, ih (some t), List.getLast?_cons]
        cases hl : (acceptedTimes (some t) ts).getLast? <;> simp
      · have hb : (checkRateLimit st t).1 = false := by
          cases hb2 : (checkRateLimit st t).1
          · rfl
          · exact absurd hb2 hacc
        have hst : (checkRateLimit st t).2 = st := checkRateLimit_reject _ _ hb
        have hunf : acceptedTimes st (t :: ts) = acceptedTimes st ts := by
          simp only [acceptedTimes, hb, hst]
          simp
        have hfs : rlFinalState st (t :: ts) = rlFinalState st ts := by
          simp only [rlFinalState, hst]
        rw [hunf, hfs, ih st]

/-! ## Structure of checkGeofencing results -/

lemma breachFold_spec (pos : GeoPos) (now : Int) (rz : List Zone) :
    ∀ (g : GeoState) (acc : List Alert),
      (rz.foldl (breachStep pos now) (g, acc)).2 = acc ++ rz.map (mkBreachAlert pos now) ∧
      ((rz.foldl (breachStep pos now) (g, acc)).1).restrictedZones = g.restrictedZones ∧
      ((rz.foldl (breachStep pos now) (g, acc)).1).safeZones = g.safeZones ∧
      ((rz.foldl (breachStep pos now) (g, acc)).1).touristZoneStates = g.touristZoneStates := by
  induction rz with
  | nil => intro g acc; simp
  | cons z rz ih =>
      intro g acc
      have hstep : breachStep pos now (g, acc) z
          = ((generateAlert g (mkBreachAlert pos now z)).1, acc ++ [mkBreachAlert pos now z]) := by
        simp [breachStep, generateAlert]
      have hfields := generateAlert_fields g (mkBreachAlert pos now z)
      have := ih (generateAlert g (mkBreachAlert pos now z)).1 (acc ++ [mkBreachAlert pos now z])
      simp only [List.foldl_cons, hstep]
      refine ⟨?_, ?_, ?_, ?_⟩
      · rw [this.1]
        simp
      · rw [this.2.1, hfields.1]
      · rw [this.2.2.1, hfields.2.1]
      · rw [this.2.2.2, hfields.2.2.1]

/-- The `safe_zone_exit` condition at geofencingService.js line 238, read off
the stored previous state and the freshly computed safe-zone list. -/
def exitFires (g : GeoState) (userId : String) (sz : List Zone) : Bool :=
  match g.touristZoneStates userId with
  | some st => st.isInSafeZone && !(decide (0 < sz.length))
  | none => false

lemma checkGeofencing_result (pip : PointInPolygon) (g : GeoState) (pos : GeoPos) (now : Int) :
    ((checkGeofencing pip g pos now).2).restrictedZones
        = checkRestrictedZones pip g pos.lat pos.lng ∧
    ((checkGeofencing pip g pos now).2).safeZones = checkSafeZones pip g pos.lat pos.lng ∧
    ((checkGeofencing pip g pos now).2).alerts =
      (checkRestrictedZones pip g pos.lat pos.lng).map (mkBreachAlert pos now) ++
        (if exitFires g pos.userId (checkSafeZones pip g pos.lat pos.lng)
         then [mkSafeExitAlert pos now] else []) := by
  have hfold := breachFold_spec pos now (checkRestrictedZones pip g pos.lat pos.lng) g []
  simp only [checkGeofencing]
  refine ⟨trivial, trivial, ?_⟩
  simp only [hfold.2.2.2]
  rw [show (match g.touristZoneStates pos.userId with
        | some st => st.isInSafeZone
            && !(decide (0 < (checkSafeZones pip g pos.lat pos.lng).length))
        | none => false)
      = exitFires g pos.userId (checkSafeZones pip g pos.lat pos.lng) from rfl]
  by_cases hfire : exitFires g pos.userId (checkSafeZones pip g pos.lat pos.lng) = true
  · rw [if_pos hfire, if_pos hfire]
    simp [hfold.1, generateAlert]
  · rw [if_neg hfire, if_neg hfire]
    simp [hfold.1]

/-! ## Concrete fixtures for closed runs -/

/-- A restricted zone on the square ring, as created by `addRestrictedZone`. -/
def c1Zone : Zone :=
  { id := "restricted_0", name := "R", coordinates := squareRing, type := "restricted",
    alertLevel := "high", description := "", isActive := true, createdAt := 0 }

/-- A geofencing service holding the single restricted zone `c1Zone`. -/
def c1State : GeoState := { initialGeoState with restrictedZones := [c1Zone] }

/-- A fix of tourist t1 inside `c1Zone`. -/
def c1Pos : GeoPos := { lat := 5, lng := 5, userId := "t1", userName := "Tourist One" }

/-- A second fix of tourist t1, still inside `c1Zone`. -/
def c1Pos2 : GeoPos := { lat := 6, lng := 6, userId := "t1", userName := "Tourist One" }

/-- First evaluation: tourist t1 enters `c1Zone`. -/
def c1Run1 : GeoState × GeoResult := checkGeofencing squareRingContains c1State c1Pos 0

/-- Second evaluation, 1,000 ms later, on the state left by the first: the
previous accepted fix was already inside `c1Zone`. -/
def c1Run2 : GeoState × GeoResult := checkGeofencing squareRingContains c1Run1.1 c1Pos2 1000

/-- C1, counterexample. Tourist t1's first fix (5, 5) is inside restricted
zone `c1Zone` and fires a `geofence_breach`; the second fix (6, 6) is inside
the same zone, whose membership the stored previous evaluation already
records (the prior membership set of the second fix contains `c1Zone`), yet
the second evaluation fires a further `geofence_breach` for it.
`checkGeofencing` generates a breach alert for every containing restricted
zone on every fix; there is no enter-edge (M_new minus M_old) computation for
restricted zones. -/
theorem c1_counterexample_repeat_breach :
    c1Run1.2.restrictedZones = [c1Zone] ∧
    c1Run1.2.alerts = [mkBreachAlert c1Pos 0 c1Zone] ∧
    c1Run1.1.touristZoneStates "t1" = some c1Run1.2 ∧
    c1Run2.2.restrictedZones = [c1Zone] ∧
    c1Run2.2.alerts = [mkBreachAlert c1Pos2 1000 c1Zone] := by
  decide

/-- C1 (amended): every `geofence_breach` alert generated by an evaluation
names a zone of the new membership set — an active restricted zone containing
the evaluated fix. The original claim's second conjunct (that the zone is
absent from the prior membership set) does not hold: as the counterexample
shows, a zone already containing the previous accepted fix fires a further
`geofence_breach` on the next fix inside it. -/
theorem c1_breach_alert_zone_in_new_membership
    (pip : PointInPolygon) (g : GeoState) (pos : GeoPos) (now : Int) (a : Alert)
    (ha : a ∈ ((checkGeofencing pip g pos now).2).alerts)
    (hb : a.type = "geofence_breach") :
    ∃ z ∈ ((checkGeofencing pip g pos now).2).restrictedZones,
      a.zoneId = some z.id ∧ z.isActive = true ∧ pip z.coordinates (pos.lng, pos.lat) = true := by
  have hres := checkGeofencing_result pip g pos now
  rw [hres.2.2] at ha
  rw [hres.1]
  rcases List.mem_append.mp ha with hmem | hmem
  · rcases List.mem_map.mp hmem with ⟨z, hz, rfl⟩
    have hzf := hz
    simp only [checkRestrictedZones] at hzf
    have hpz : z.isActive = true ∧ pip z.coordinates (pos.lng, pos.lat) = true := by
      simpa using (List.mem_filter.mp hzf).2
    exact ⟨z, hz, rfl, hpz.1, hpz.2⟩
  · by_cases hfire : exitFires g pos.userId (checkSafeZones pip g pos.lat pos.lng) = true
    · rw [if_pos hfire] at hmem
      simp only [List.mem_singleton] at hmem
      subst hmem
      simp [mkSafeExitAlert] at hb
    · rw [if_neg hfire] at hmem
      simp at hmem

/-- C1, witness: the amended theorem applied to the first concrete run. -/
theorem c1_breach_alert_witness :
    ∃ z ∈ c1Run1.2.restrictedZones,
      (mkBreachAlert c1Pos 0 c1Zone).zoneId = some z.id ∧ z.isActive = true ∧
      squareRingContains z.coordinates (c1Pos.lng, c1Pos.lat) = true :=
  c1_breach_alert_zone_in_new_membership squareRingContains c1State c1Pos 0
    (mkBreachAlert c1Pos 0 c1Zone) (by decide) (by decide)

/-- A safe zone on the square ring, as created by `addSafeZone`. -/
def c7SafeZone : Zone :=
  { id := "safe_0", name := "S", coordinates := squareRing, type := "safe",
    alertLevel := "low", description := "", isActive := true, createdAt := 0 }

/-- A previous evaluation of tourist t4 recorded inside the safe zone. -/
def c7Stored : GeoResult :=
  { userId := "t4", userName := "Tourist Four", lat := 5, lng := 5, timestamp := 0,
    restrictedZones := [], safeZones := [c7SafeZone], alerts := [],
    isInRestrictedZone := false, isInSafeZone := true }

/-- A geofencing service with one safe zone and t4's stored state. -/
def c7State : GeoState :=
  { restrictedZones := [], safeZones := [c7SafeZone], alertHistory := [],
    touristZoneStates := fun u => if u = "t4" then some c7Stored else none }

/-- A new fix of t4 outside every zone. -/
def c7Pos : GeoPos := { lat := 20, lng := 20, userId := "t4", userName := "Tourist Four" }

lemma breach_alerts_filter_safe_exit (pos : GeoPos) (now : Int) (l : List Zone) :
    (l.map (mkBreachAlert pos now)).filter (fun a => a.type == "safe_zone_exit") = [] := by
  induction l with
  | nil => rfl
  | cons z l ih => simp [List.filter_cons, mkBreachAlert, ih]

/-- C7 (confirmed): when the stored previous evaluation of the tourist
records `isInSafeZone` (at least one safe zone contained the previous fix)
and the new fix is contained in no safe zone, the evaluation generates
exactly one `safe_zone_exit` alert — carrying the fix's data and alert level
(severity) `medium` — and, when additionally no restricted zone contains the
fix, no `geofence_breach` alert. -/
theorem c7_safe_zone_exit_unique_medium
    (pip : PointInPolygon) (g : GeoState) (pos : GeoPos) (now : Int) (st : GeoResult)
    (hst : g.touristZoneStates pos.userId = some st)
    (hin : st.isInSafeZone = true)
    (hsz : checkSafeZones pip g pos.lat pos.lng = []) :
    ((checkGeofencing pip g pos now).2).alerts.filter (fun a => a.type == "safe_zone_exit")
        = [mkSafeExitAlert pos now] ∧
    (mkSafeExitAlert pos now).alertLevel = "medium" ∧
    (checkRestrictedZones pip g pos.lat pos.lng = [] →
      ((checkGeofencing pip g pos now).2).alerts.filter (fun a => a.type == "geofence_breach")
        = []) := by
  have hres := (checkGeofencing_result pip g pos now).2.2
  have hfire : exitFires g pos.userId (checkSafeZones pip g pos.lat pos.lng) = true := by
    simp [exitFires, hst, hin, hsz]
  rw [hres, if_pos hfire]
  refine ⟨?_, rfl, ?_⟩
  · rw [List.filter_append, breach_alerts_filter_safe_exit]
    simp [mkSafeExitAlert]
  · intro hrz
    rw [hrz]
    simp [mkSafeExitAlert]

/-- C7, witness: the theorem applied to the concrete state `c7State` with
t4's fix (20, 20), which lies outside the safe zone. -/
theorem c7_safe_zone_exit_witness :
    ((checkGeofencing squareRingContains c7State c7Pos 5000).2).alerts.filter
        (fun a => a.type == "safe_zone_exit") = [mkSafeExitAlert c7Pos 5000] ∧
    (mkSafeExitAlert c7Pos 5000).alertLevel = "medium" ∧
    (checkRestrictedZones squareRingContains c7State c7Pos.lat c7Pos.lng = [] →
      ((checkGeofencing squareRingContains c7State c7Pos 5000).2).alerts.filter
        (fun a => a.type == "geofence_breach") = []) :=
  c7_safe_zone_exit_unique_medium squareRingContains c7State c7Pos 5000 c7Stored
    (by decide) (by decide) (by decide)

/-- C9 (confirmed): starting from a fresh service, after any sequence of
`generateAlert` calls the alert ring `alertHistory` equals the last 1,000 of
the generated alerts — all of them while at most 1,000 have been generated,
and exactly the 1,000 most recent ones (oldest evicted) once more have — and
in particular never holds more than 1,000 alerts. -/
theorem c9_alert_ring_bounded_and_recent (as : List Alert) :
    (runGenerateAlerts initialGeoState as).alertHistory = lastWindow 1000 as ∧
    (runGenerateAlerts initialGeoState as).alertHistory.length ≤ 1000 ∧
    (1000 < as.length → (runGenerateAlerts initialGeoState as).alertHistory.length = 1000) := by
  have h := runGenerateAlerts_alertHistory as initialGeoState (by simp [initialGeoState])
  have h0 : initialGeoState.alertHistory = [] := rfl
  rw [h0] at h
  simp only [List.nil_append] at h
  refine ⟨h, ?_, ?_⟩
  · rw [h]
    exact lastWindow_length_le 1000 as
  · intro hlong
    rw [h]
    simp only [lastWindow, List.length_drop]
    omega

/-- C10 (confirmed): `checkRateLimit` stores only the time of the last
attempt it accepted — a rejected attempt leaves the stored entry unchanged —
and over any sequence of attempts (at positive clock values, as `Date.now()`
produces) every two accepted attempts are at least 5,000 ms apart; the final
stored entry is the time of the last accepted attempt. -/
theorem c10_rate_limiter_5s_spacing (ts : List Int) (st : Option Int) (u : Int)
    (hpos : ∀ t ∈ ts, (0:Int) < t) :
    ((checkRateLimit st u).1 = false → (checkRateLimit st u).2 = st) ∧
    List.Pairwise (fun a b => a + 5000 ≤ b) (acceptedTimes none ts) ∧
    rlFinalState none ts = ((acceptedTimes none ts).getLast?).elim none some := by
  refine ⟨checkRateLimit_reject st u, ?_, rlFinalState_eq_getLast ts none⟩
  haveI : IsTrans Int (fun a b => a + 5000 ≤ b) := ⟨fun a b c hab hbc => by omega⟩
  exact List.chain'_iff_pairwise.mp (acceptedTimes_chain_none ts hpos)

/-- C10, witness: three attempts at 1,000 ms, 3,000 ms, and 6,001 ms; the
second is rejected and does not extend the window, so the third (5,001 ms
after the first accepted one) is accepted. -/
theorem c10_rate_limiter_witness :
    ((checkRateLimit (some 42) 7).1 = false → (checkRateLimit (some 42) 7).2 = some 42) ∧
    List.Pairwise (fun a b => a + 5000 ≤ b) (acceptedTimes none [1000, 3000, 6001]) ∧
    rlFinalState none [1000, 3000, 6001]
      = ((acceptedTimes none [1000, 3000, 6001]).getLast?).elim none some :=
  c10_rate_limiter_5s_spacing [1000, 3000, 6001] (some 42) 7 (by decide)

/-! ## Behaviour of the socket ingestion handler -/

lemma handlePositionUpdate_reject (hdist hbearing : ℚ → ℚ → ℚ → ℚ → ℚ)
    (s : ServerState) (userId userName : String) (data : PositionData) (now : Int)
    (h : (checkRateLimit (s.rateLimits userId) now).1 = false) :
    handlePositionUpdate hdist hbearing s userId userName data now
      = (s, [OutMsg.errorMsg userId
          "Rate limit exceeded. Please wait before sending another update."]) := by
  simp [handlePositionUpdate, h]

lemma handlePositionUpdate_accept (hdist hbearing : ℚ → ℚ → ℚ → ℚ → ℚ)
    (s : ServerState) (userId userName : String) (data : PositionData) (now : Int)
    (hok : (checkRateLimit (s.rateLimits userId) now).1 = true)
    (hlat : data.lat ≠ 0) (hlon : data.lon ≠ 0) (hts : data.timestamp ≠ 0) :
    (handlePositionUpdate hdist hbearing s userId userName data now).2 =
      [OutMsg.zoneStatusMsg ("user:" ++ userId) false false [] [],
       OutMsg.locationChanged ("watch:" ++ userId) userId userName data.lat data.lon
         (data.accuracy.getD 0) data.timestamp] ∧
    (handlePositionUpdate hdist hbearing s userId userName data now).1.history =
      storeLocationWithAnalytics hdist hbearing s.pgAvailable s.history
        { userId := userId, lat := data.lat, lon := data.lon,
          accuracy := data.accuracy.getD 0, timestamp := data.timestamp,
          userName := userName }
        data.deviceInfo data.networkInfo data.anonymized (jsOrInt data.retentionDays 30) ∧
    (handlePositionUpdate hdist hbearing s userId userName data now).1.rateLimits userId
      = some now := by
  have hst := checkRateLimit_accept_state _ _ hok
  by_cases hr : s.redisConnected <;>
    simp [handlePositionUpdate, hok, hlat, hlon, hts, hr, socketCheckGeofencing, hst]

lemma handlePositionUpdate_rateLimits_set (hdist hbearing : ℚ → ℚ → ℚ → ℚ → ℚ)
    (s : ServerState) (userId userName : String) (data : PositionData) (now : Int)
    (hok : (checkRateLimit (s.rateLimits userId) now).1 = true) :
    (handlePositionUpdate hdist hbearing s userId userName data now).1.rateLimits userId
      = some now := by
  have hst := checkRateLimit_accept_state _ _ hok
  by_cases hv : data.lat = 0 ∨ data.lon = 0 ∨ data.timestamp = 0
  · simp [handlePositionUpdate, hok, hv, hst]
  · by_cases hr : s.redisConnected <;>
      simp [handlePositionUpdate, hok, hv, hr, socketCheckGeofencing, hst]

lemma storeLocation_append (hdist hbearing : ℚ → ℚ → ℚ → ℚ → ℚ)
    (history : List HistoryRow) (p : Position) (deviceInfo networkInfo : Option String)
    (anonymized : Bool) (retentionDays : Int) :
    ∃ row : HistoryRow,
      storeLocationWithAnalytics hdist hbearing true history p deviceInfo networkInfo
          anonymized retentionDays = history ++ [row] ∧
      row.userId = p.userId ∧ row.timestamp = p.timestamp ∧
      row.latitude = p.lat ∧ row.longitude = p.lon := by
  simp only [storeLocationWithAnalytics, Bool.not_true, Bool.false_eq_true, if_false]
  exact ⟨_, rfl, rfl, rfl, rfl, rfl⟩

/-- A trivial instantiation of the haversine distance/bearing parameters. -/
def zeroGeo : ℚ → ℚ → ℚ → ℚ → ℚ := fun _ _ _ _ => 0

/-- A privacy store with no consent record for any tourist. -/
def noConsentDB : PrivacyDB := fun _ => none

/-- C2 (amended): for a tourist with no stored consent record,
`hasLocationConsent` is `false` — yet the socket ingestion path never
consults it: a valid fix passing the rate limiter is accepted, a history row
is appended for the tourist, and the `zone_status` and `location:changed`
fan-out is emitted, with no error surfaced. The original claim's
`ConsentRequired` rejection does not exist on the ingestion path (consent is
only served to clients via the privacy HTTP routes). -/
theorem c2_ingestion_ignores_consent (hdist hbearing : ℚ → ℚ → ℚ → ℚ → ℚ)
    (db : PrivacyDB) (s : ServerState) (userId userName : String)
    (data : PositionData) (now : Int)
    (hdb : db userId = none)
    (hok : (checkRateLimit (s.rateLimits userId) now).1 = true)
    (hpg : s.pgAvailable = true)
    (hlat : data.lat ≠ 0) (hlon : data.lon ≠ 0) (hts : data.timestamp ≠ 0) :
    hasLocationConsent db userId = false ∧
    (∃ row : HistoryRow,
      (handlePositionUpdate hdist hbearing s userId userName data now).1.history
        = s.history ++ [row] ∧ row.userId = userId ∧ row.timestamp = data.timestamp) ∧
    (handlePositionUpdate hdist hbearing s userId userName data now).2 =
      [OutMsg.zoneStatusMsg ("user:" ++ userId) false false [] [],
       OutMsg.locationChanged ("watch:" ++ userId) userId userName data.lat data.lon
         (data.accuracy.getD 0) data.timestamp] ∧
    (∀ m ∈ (handlePositionUpdate hdist hbearing s userId userName data now).2,
      m.isErr = false) := by
  obtain ⟨hmsgs, hhist, -⟩ :=
    handlePositionUpdate_accept hdist hbearing s userId userName data now hok hlat hlon hts
  rw [hpg] at hhist
  obtain ⟨row, hrow, hrid, hrts, -, -⟩ :=
    storeLocation_append hdist hbearing s.history
      { userId := userId, lat := data.lat, lon := data.lon,
        accuracy := data.accuracy.getD 0, timestamp := data.timestamp,
        userName := userName }
      data.deviceInfo data.networkInfo data.anonymized (jsOrInt data.retentionDays 30)
  refine ⟨by simp [hasLocationConsent, hdb], ⟨row, ?_, hrid, hrts⟩, hmsgs, ?_⟩
  · rw [hhist, hrow]
  · intro m hm
    rw [hmsgs] at hm
    simp only [List.mem_cons, List.not_mem_nil, or_false] at hm
    rcases hm with rfl | rfl <;> rfl

/-- The payload of a valid fix used in the concrete runs. -/
def c2Data : PositionData :=
  { lat := 5, lon := 6, accuracy := none, timestamp := 1000,
    deviceInfo := none, networkInfo := none, anonymized := false,
    retentionDays := none }

/-- One socket update of tourist t2 (who has no consent record) against a
fresh server. -/
def c2Run : ServerState × List OutMsg :=
  handlePositionUpdate zeroGeo zeroGeo initialServerState "t2" "Tourist Two" c2Data 2000

/-- C2, counterexample. Tourist t2 has no consent record
(`hasLocationConsent` is `false`), yet ingesting a valid fix produces no
`ConsentRequired` (or any) error: the fix is accepted, one history row is
stored, and `zone_status` plus `location:changed` fan-out is emitted. -/
theorem c2_counterexample_no_consent_gate :
    hasLocationConsent noConsentDB "t2" = false ∧
    c2Run.1.history.length = 1 ∧
    c2Run.2 = [OutMsg.zoneStatusMsg "user:t2" false false [] [],
               OutMsg.locationChanged "watch:t2" "t2" "Tourist Two" 5 6 0 1000] ∧
    (∀ m ∈ c2Run.2, m.isErr = false) := by
  decide

/-- C2, witness: the amended theorem applied to the concrete no-consent run. -/
theorem c2_ingestion_ignores_consent_witness :
    hasLocationConsent noConsentDB "t2" = false ∧
    (∃ row : HistoryRow,
      (handlePositionUpdate zeroGeo zeroGeo initialServerState "t2" "Tourist Two" c2Data 2000).1.history
        = initialServerState.history ++ [row] ∧ row.userId = "t2" ∧ row.timestamp = c2Data.timestamp) ∧
    (handlePositionUpdate zeroGeo zeroGeo initialServerState "t2" "Tourist Two" c2Data 2000).2 =
      [OutMsg.zoneStatusMsg ("user:" ++ "t2") false false [] [],
       OutMsg.locationChanged ("watch:" ++ "t2") "t2" "Tourist Two" c2Data.lat c2Data.lon
         (c2Data.accuracy.getD 0) c2Data.timestamp] ∧
    (∀ m ∈ (handlePositionUpdate zeroGeo zeroGeo initialServerState "t2" "Tourist Two" c2Data 2000).2,
      m.isErr = false) :=
  c2_ingestion_ignores_consent zeroGeo zeroGeo noConsentDB initialServerState "t2"
    "Tourist Two" c2Data 2000 rfl (by decide) rfl (by decide) (by decide) (by decide)

/-- C3 (amended): the socket ingestion path performs no client-timestamp
monotonicity check. Even when the tourist's latest stored history row
carries a strictly greater client timestamp than the incoming fix, the fix —
passing only the rate limiter and the truthiness validation — is accepted:
its history row is appended and its `location:changed` broadcast is emitted,
with no error. Accepted fixes for one tourist are ordered only by server
arrival (the 5-second rate limiter), not by client timestamp, so the original
claim's ordering guarantee and silent drop of older fixes do not hold. -/
theorem c3_out_of_order_fix_accepted (hdist hbearing : ℚ → ℚ → ℚ → ℚ → ℚ)
    (s : ServerState) (userId userName : String) (data : PositionData) (now : Int)
    (prev : HistoryRow)
    (hok : (checkRateLimit (s.rateLimits userId) now).1 = true)
    (hpg : s.pgAvailable = true)
    (hlat : data.lat ≠ 0) (hlon : data.lon ≠ 0) (hts : data.timestamp ≠ 0)
    (_hprev : latestRowFor s.history userId = some prev)
    (holder : data.timestamp < prev.timestamp) :
    (∃ row : HistoryRow,
      (handlePositionUpdate hdist hbearing s userId userName data now).1.history
        = s.history ++ [row] ∧ row.userId = userId ∧ row.timestamp = data.timestamp) ∧
    (handlePositionUpdate hdist hbearing s userId userName data now).2 =
      [OutMsg.zoneStatusMsg ("user:" ++ userId) false false [] [],
       OutMsg.locationChanged ("watch:" ++ userId) userId userName data.lat data.lon
         (data.accuracy.getD 0) data.timestamp] ∧
    (∀ m ∈ (handlePositionUpdate hdist hbearing s userId userName data now).2,
      m.isErr = false) := by
  have hlt : prev.timestamp ≠ data.timestamp := by omega
  obtain ⟨hmsgs, hhist, -⟩ :=
    handlePositionUpdate_accept hdist hbearing s userId userName data now hok hlat hlon hts
  rw [hpg] at hhist
  obtain ⟨row, hrow, hrid, hrts, -, -⟩ :=
    storeLocation_append hdist hbearing s.history
      { userId := userId, lat := data.lat, lon := data.lon,
        accuracy := data.accuracy.getD 0, timestamp := data.timestamp,
        userName := userName }
      data.deviceInfo data.networkInfo data.anonymized (jsOrInt data.retentionDays 30)
  refine ⟨⟨row, ?_, hrid, hrts⟩, hmsgs, ?_⟩
  · rw [hhist, hrow]
  · intro m hm
    rw [hmsgs] at hm
    simp only [List.mem_cons, List.not_mem_nil, or_false] at hm
    rcases hm with rfl | rfl <;> rfl

/-- The history row left by t3's first fix (client timestamp 10,000 ms). -/
def c3Data1 : PositionData :=
  { lat := 5, lon := 6, accuracy := none, timestamp := 10000,
    deviceInfo := none, networkInfo := none, anonymized := false,
    retentionDays := none }

/-- t3's second fix: client timestamp 4,000 ms, older than the first. -/
def c3Data2 : PositionData :=
  { lat := 7, lon := 8, accuracy := none, timestamp := 4000,
    deviceInfo := none, networkInfo := none, anonymized := false,
    retentionDays := none }

/-- Two updates of tourist t3 arriving 6,000 ms apart in server time, the
second carrying the older client timestamp. -/
def c3Run : ServerState × List OutMsg :=
  runUpdates zeroGeo zeroGeo initialServerState
    [("t3", "Tourist Three", c3Data1, 1000), ("t3", "Tourist Three", c3Data2, 7000)]

/-- C3, counterexample. Both fixes are accepted: two history rows with client
timestamps 10,000 then 4,000 (not monotone), two `location:changed`
broadcasts, and no error — the older fix is neither dropped nor rejected. -/
theorem c3_counterexample_older_fix_stored :
    c3Run.1.history.map (fun r => r.timestamp) = [10000, 4000] ∧
    (c3Run.2.filter OutMsg.isLocationChanged).length = 2 ∧
    (∀ m ∈ c3Run.2, m.isErr = false) := by
  decide

/-- The stored history row of t3's first fix, used to instantiate the
out-of-order hypothesis of the amended C3 theorem. -/
def c3PrevRow : HistoryRow :=
  { userId := "t3", userName := "Tourist Three", latitude := 5, longitude := 6,
    accuracy := 0, timestamp := 10000, deviceInfo := none, networkInfo := none,
    anonymized := false, retentionDays := 30, distanceFromPrevious := none,
    timeFromPrevious := none, speed := none, heading := none,
    qualityScore := 1, isAnomalous := false }

/-- A server whose history already holds t3's row at client timestamp 10,000
and whose rate-limit map last accepted t3 at 1,000 ms. -/
def c3State : ServerState :=
  { initialServerState with
      history := [c3PrevRow],
      rateLimits := fun u => if u = "t3" then some 1000 else none }

/-- C3, witness: the amended theorem applied at server time 7,000 ms to the
fix with client timestamp 4,000 ms, older than the stored 10,000 ms. -/
theorem c3_out_of_order_witness :
    (∃ row : HistoryRow,
      (handlePositionUpdate zeroGeo zeroGeo c3State "t3" "Tourist Three" c3Data2 7000).1.history
        = c3State.history ++ [row] ∧ row.userId = "t3" ∧ row.timestamp = c3Data2.timestamp) ∧
    (handlePositionUpdate zeroGeo zeroGeo c3State "t3" "Tourist Three" c3Data2 7000).2 =
      [OutMsg.zoneStatusMsg ("user:" ++ "t3") false false [] [],
       OutMsg.locationChanged ("watch:" ++ "t3") "t3" "Tourist Three" c3Data2.lat c3Data2.lon
         (c3Data2.accuracy.getD 0) c3Data2.timestamp] ∧
    (∀ m ∈ (handlePositionUpdate zeroGeo zeroGeo c3State "t3" "Tourist Three" c3Data2 7000).2,
      m.isErr = false) :=
  c3_out_of_order_fix_accepted zeroGeo zeroGeo c3State "t3" "Tourist Three" c3Data2 7000
    c3PrevRow (by decide) rfl (by decide) (by decide) (by decide) (by decide) (by decide)

/-- C4 (amended): there is no duplicate suppression anywhere. (i)
`generateAlert` appends every alert to the ring — two alerts with identical
(tourist, kind, zone id) generated any interval apart, in particular under
2 s, are both retained. (ii) On the socket path a second `position:update`
of the same user arriving less than 5 s after the previous one is rejected
by `checkRateLimit`: it yields only an error message and leaves the state
unchanged — so two boundary crossings within 2 s produce one processed fix,
not one collapsed alert out of two, and only one `location:changed`
broadcast rather than two. -/
theorem c4_no_duplicate_suppression
    (g : GeoState) (a b : Alert)
    (hdist hbearing : ℚ → ℚ → ℚ → ℚ → ℚ) (s : ServerState)
    (userId userName : String) (d1 d2 : PositionData) (now1 now2 : Int)
    (hlen : g.alertHistory.length ≤ 998)
    (hrl : s.rateLimits userId = none)
    (h0 : 0 < now1)
    (hgap : now2 - now1 < 5000) :
    ((generateAlert (generateAlert g a).1 b).1).alertHistory = g.alertHistory ++ [a, b] ∧
    handlePositionUpdate hdist hbearing
        (handlePositionUpdate hdist hbearing s userId userName d1 now1).1
        userId userName d2 now2
      = ((handlePositionUpdate hdist hbearing s userId userName d1 now1).1,
         [OutMsg.errorMsg userId
           "Rate limit exceeded. Please wait before sending another update."]) := by
  constructor
  · rw [generateAlert_alertHistory, generateAlert_alertHistory, lastWindow_append]
    have hl : (g.alertHistory ++ [a] ++ [b]).length ≤ 1000 := by
      simp only [List.length_append, List.length_singleton]
      omega
    rw [lastWindow_of_le hl]
    simp
  · have hok1 : (checkRateLimit (s.rateLimits userId) now1).1 = true := by
      rw [hrl]
      rfl
    have hset :=
      handlePositionUpdate_rateLimits_set hdist hbearing s userId userName d1 now1 hok1
    have hrej : (checkRateLimit
        ((handlePositionUpdate hdist hbearing s userId userName d1 now1).1.rateLimits userId)
        now2).1 = false := by
      rw [hset]
      simp only [checkRateLimit]
      rw [if_pos ⟨by omega, hgap⟩]
    exact handlePositionUpdate_reject hdist hbearing _ userId userName d2 now2 hrej

/-- Two updates of tourist t5 arriving 1,000 ms apart in server time. -/
def c4Run : ServerState × List OutMsg :=
  runUpdates zeroGeo zeroGeo initialServerState
    [("t5", "Tourist Five", c2Data, 1000), ("t5", "Tourist Five", c2Data, 2000)]

/-- C4, counterexample. (i) Two `generateAlert` calls with identical
(tourist, kind, zone id) 1,000 ms apart leave two alerts in the ring, not a
collapsed one. (ii) Two socket updates of one tourist 1,000 ms apart produce
exactly one `location:changed` broadcast — the second update is rejected
with a rate-limit error (and, the position being passed under `lon` where
the geofencing service reads `lng`, not even the first produces any alert
emission); the claimed "two location:changed broadcasts" never occur. -/
theorem c4_counterexample_both_alerts_kept_one_broadcast :
    ((generateAlert (generateAlert initialGeoState (mkBreachAlert c1Pos 0 c1Zone)).1
        (mkBreachAlert c1Pos 1000 c1Zone)).1).alertHistory
      = [mkBreachAlert c1Pos 0 c1Zone, mkBreachAlert c1Pos 1000 c1Zone] ∧
    (c4Run.2.filter OutMsg.isLocationChanged).length = 1 ∧
    c4Run.2 = [OutMsg.zoneStatusMsg "user:t5" false false [] [],
               OutMsg.locationChanged "watch:t5" "t5" "Tourist Five" 5 6 0 1000,
               OutMsg.errorMsg "t5"
                 "Rate limit exceeded. Please wait before sending another update."] := by
  decide

/-- C4, witness: the amended theorem at the concrete two-update scenario. -/
theorem c4_no_duplicate_suppression_witness :
    ((generateAlert (generateAlert initialGeoState (mkBreachAlert c1Pos 0 c1Zone)).1
        (mkBreachAlert c1Pos 1000 c1Zone)).1).alertHistory
      = initialGeoState.alertHistory ++ [mkBreachAlert c1Pos 0 c1Zone, mkBreachAlert c1Pos 1000 c1Zone] ∧
    handlePositionUpdate zeroGeo zeroGeo
        (handlePositionUpdate zeroGeo zeroGeo initialServerState "t5" "Tourist Five" c2Data 1000).1
        "t5" "Tourist Five" c2Data 2000
      = ((handlePositionUpdate zeroGeo zeroGeo initialServerState "t5" "Tourist Five" c2Data 1000).1,
         [OutMsg.errorMsg "t5"
           "Rate limit exceeded. Please wait before sending another update."]) :=
  c4_no_duplicate_suppression initialGeoState (mkBreachAlert c1Pos 0 c1Zone)
    (mkBreachAlert c1Pos 1000 c1Zone) zeroGeo zeroGeo initialServerState "t5" "Tourist Five"
    c2Data c2Data 1000 2000 (by decide) rfl (by decide) (by decide)

/-- C5 (amended): within one 60-second window of the express `position`
limiter (keyed by client ip, not by tourist id), a request is accepted while
the window's hit count stays at or below 20 and fails rate-limited (HTTP
429) beyond that — so of 21 requests in one window the first 20 are accepted
and the 21st is rejected. Accepted requests update the live position but
write no history row: the HTTP position path never touches the history
store (history rows are produced only by the socket path, which admits at
most one update per 5 s per user). -/
theorem c5_http_position_window (s : ServerState) (ip userId userName : String)
    (lat lon : ℚ) (accuracy : Option ℚ) (timestamp now : Int) (b : Nat × Int)
    (hb : s.posBuckets ip = some b) (hw : now - b.2 < 60000)
    (hlat : lat ≠ 0) (hlon : lon ≠ 0) (hts : timestamp ≠ 0) :
    (b.1 + 1 ≤ 20 →
      (postPosition s ip userId userName lat lon accuracy timestamp now).2
        = HttpResp.ok lat lon (accuracy.getD 0) timestamp) ∧
    (20 < b.1 + 1 →
      (postPosition s ip userId userName lat lon accuracy timestamp now).2
        = HttpResp.tooManyRequests "Too many position updates, please slow down.") ∧
    (postPosition s ip userId userName lat lon accuracy timestamp now).1.history
      = s.history := by
  have hhit : expressRateLimitHit 60000 20 (s.posBuckets ip) now
      = (decide (b.1 + 1 ≤ 20), (b.1 + 1, b.2)) := by
    rw [hb]
    simp only [expressRateLimitHit]
    have hcase : (if now - b.2 ≥ 60000 then ((0 : Nat), now) else b) = b :=
      if_neg (by omega)
    simp only [hcase]
  refine ⟨?_, ?_, ?_⟩
  · intro hle
    simp [postPosition, hhit, hle, hlat, hlon, hts]
  · intro hgt
    have : ¬ (b.1 + 1 ≤ 20) := by omega
    simp [postPosition, hhit, this]
  · by_cases hle : b.1 + 1 ≤ 20
    · simp [postPosition, hhit, hle, hlat, hlon, hts]
    · simp [postPosition, hhit, hle]

/-- 21 request arrival times inside one 60-second window. -/
def c5Times : List Int :=
  [1, 2, 3, 4, 5, 6, 7, 8, 9, 10, 11, 12, 13, 14, 15, 16, 17, 18, 19, 20, 21]

/-- 21 valid posts of tourist t3 from one client ip within 60 s. -/
def c5Run : ServerState × List HttpResp :=
  runPosts initialServerState "203.0.113.7" "t3" "Tourist Three" 5 6 none 100 c5Times

/-- C5, counterexample. Of t3's 21 posts within one window the first 20 are
accepted and the 21st fails rate-limited — but the accepted posts produce
zero history rows, not 20: the HTTP position endpoint only updates the redis
live position. -/
theorem c5_counterexample_no_history_rows :
    c5Run.2 = List.replicate 20 (HttpResp.ok 5 6 0 100)
        ++ [HttpResp.tooManyRequests "Too many position updates, please slow down."] ∧
    c5Run.1.history = [] ∧
    (c5Run.1.livePositions "t3").isSome = true := by
  decide

/-- C5, witness: the amended theorem applied to the 20th and 21st hits of a
window. -/
theorem c5_http_position_window_witness :
    ((19 + 1 ≤ 20 →
      (postPosition { initialServerState with posBuckets := fun i => if i = "ip" then some (19, 1) else none }
          "ip" "t3" "Tourist Three" 5 6 none 100 30000).2
        = HttpResp.ok 5 6 ((none : Option ℚ).getD 0) 100) ∧
    (20 < 19 + 1 →
      (postPosition { initialServerState with posBuckets := fun i => if i = "ip" then some (19, 1) else none }
          "ip" "t3" "Tourist Three" 5 6 none 100 30000).2
        = HttpResp.tooManyRequests "Too many position updates, please slow down.") ∧
    (postPosition { initialServerState with posBuckets := fun i => if i = "ip" then some (19, 1) else none }
        "ip" "t3" "Tourist Three" 5 6 none 100 30000).1.history
      = ({ initialServerState with posBuckets := fun i => if i = "ip" then some (19, 1) else none } : ServerState).history) :=
  c5_http_position_window
    { initialServerState with posBuckets := fun i => if i = "ip" then some (19, 1) else none }
    "ip" "t3" "Tourist Three" 5 6 none 100 30000 (19, 1) rfl (by decide)
    (by decide) (by decide) (by decide)

/-! ## Anonymization properties -/

lemma hexOfBytes_length (bs : List Nat) : (hexOfBytes bs).length = 2 * bs.length := by
  induction bs with
  | nil => rfl
  | cons b bs ih =>
      simp only [hexOfBytes, List.flatMap_cons, List.length_append, List.length_cons,
        List.length_nil] at ih ⊢
      omega

lemma round2_zero : round2 0 = 0 := by
  norm_num [round2, jsRound]

lemma hashUserId_length (sha : String → List Nat) (userId : String)
    (hsha : (sha userId).length = 32) : (hashUserId sha userId).length = 16 := by
  show ((hexOfBytes (sha userId)).take 16).length = 16
  rw [List.length_take, hexOfBytes_length, hsha]
  omega

/-- C6 (amended): when anonymization is enabled in the stored preferences,
the anonymized record's latitude and longitude equal the input values
rounded to two decimal places; a display name of length at least 2 becomes
its first character followed by length − 1 asterisks (preserving the
original length), while a nonempty shorter name becomes the fixed string
"Anonymous"; and a nonempty tourist id is replaced by `hashUserId` — a fixed
deterministic function of the id whose output is always a 16-character hex
string, hence never equal to a cleartext id whose length differs from 16.
(The hypothesis on `sha` records that SHA-256 digests are 32 bytes.) -/
theorem c6_anonymization_shape (sha : String → List Nat) (ld : LocationRecord)
    (p : PrivacyData)
    (hanon : p.preferences.anonymization = true)
    (hsha : (sha ld.userId).length = 32) :
    (anonymizeLocationData sha ld (some p)).lat = round2 ld.lat ∧
    (anonymizeLocationData sha ld (some p)).lon = round2 ld.lon ∧
    (2 ≤ ld.userName.length →
      (anonymizeLocationData sha ld (some p)).userName
        = String.mk (ld.userName.data.take 1
            ++ List.replicate (ld.userName.length - 1) '*')) ∧
    (ld.userName ≠ "" → ld.userName.length < 2 →
      (anonymizeLocationData sha ld (some p)).userName = "Anonymous") ∧
    (ld.userId ≠ "" →
      (anonymizeLocationData sha ld (some p)).userId = hashUserId sha ld.userId ∧
      ((anonymizeLocationData sha ld (some p)).userId).length = 16 ∧
      (ld.userId.length ≠ 16 →
        (anonymizeLocationData sha ld (some p)).userId ≠ ld.userId)) := by
  have hunf : anonymizeLocationData sha ld (some p) =
      { lat := if ld.lat = 0 then ld.lat else round2 ld.lat
        lon := if ld.lon = 0 then ld.lon else round2 ld.lon
        userId := if ld.userId = "" then ld.userId else hashUserId sha ld.userId
        userName := if ld.userName = "" then ld.userName
          else anonymizeUserName ld.userName } := by
    simp [anonymizeLocationData, hanon]
  rw [hunf]
  refine ⟨?_, ?_, ?_, ?_, ?_⟩
  · by_cases h : ld.lat = 0
    · simp [h, round2_zero]
    · simp [h]
  · by_cases h : ld.lon = 0
    · simp [h, round2_zero]
    · simp [h]
  · intro hlen
    have hne : ld.userName ≠ "" := by
      intro hc
      rw [hc] at hlen
      simp at hlen
    simp only [if_neg hne]
    rw [anonymizeUserName, if_neg (by omega)]
  · intro hne hshort
    simp only [if_neg hne]
    rw [anonymizeUserName, if_pos hshort]
  · intro hne
    simp only [if_neg hne]
    have hlen := hashUserId_length sha ld.userId hsha
    refine ⟨trivial, hlen, ?_⟩
    intro hne16 heq
    rw [heq] at hlen
    exact hne16 hlen

/-- A stand-in digest function for concrete runs (the length hypothesis is
all the theorems consume). -/
def shaZero : String → List Nat := fun _ => List.replicate 32 0

/-- Privacy preferences with anonymization enabled. -/
def c6Prefs : PrivacyData :=
  { preferences := { locationSharing := true, dataRetention := 30, anonymization := true },
    consentGiven := true }

/-- A record whose display name is the single character "A". -/
def c6Rec : LocationRecord := { userId := "u1", userName := "A", lat := 5, lon := 6 }

/-- C6, counterexample. For the one-character name "A" the anonymized display
name is the fixed string "Anonymous" — not the input's first character
followed by asterisks (neither "A" nor "A*"), as the claim requires of every
anonymized record. -/
theorem c6_counterexample_short_name :
    (anonymizeLocationData shaZero c6Rec (some c6Prefs)).userName = "Anonymous" ∧
    (anonymizeLocationData shaZero c6Rec (some c6Prefs)).userName ≠ "A" ∧
    (anonymizeLocationData shaZero c6Rec (some c6Prefs)).userName ≠ "A*" := by
  decide

/-- A record with a three-character name and a four-character id. -/
def c6Rec2 : LocationRecord := { userId := "u123", userName := "Bob", lat := 5/4, lon := 6 }

/-- C6, witness: the amended theorem applied to the record `c6Rec2`. -/
theorem c6_anonymization_witness :
    (anonymizeLocationData shaZero c6Rec2 (some c6Prefs)).lat = round2 c6Rec2.lat ∧
    (anonymizeLocationData shaZero c6Rec2 (some c6Prefs)).lon = round2 c6Rec2.lon ∧
    (2 ≤ c6Rec2.userName.length →
      (anonymizeLocationData shaZero c6Rec2 (some c6Prefs)).userName
        = String.mk (c6Rec2.userName.data.take 1
            ++ List.replicate (c6Rec2.userName.length - 1) '*')) ∧
    (c6Rec2.userName ≠ "" → c6Rec2.userName.length < 2 →
      (anonymizeLocationData shaZero c6Rec2 (some c6Prefs)).userName = "Anonymous") ∧
    (c6Rec2.userId ≠ "" →
      (anonymizeLocationData shaZero c6Rec2 (some c6Prefs)).userId = hashUserId shaZero c6Rec2.userId ∧
      ((anonymizeLocationData shaZero c6Rec2 (some c6Prefs)).userId).length = 16 ∧
      (c6Rec2.userId.length ≠ 16 →
        (anonymizeLocationData shaZero c6Rec2 (some c6Prefs)).userId ≠ c6Rec2.userId)) :=
  c6_anonymization_shape shaZero c6Rec2 c6Prefs rfl (by decide)

/-! ## Zone creation -/

lemma closeCoords_closed (c0 : ℚ × ℚ) (rest : List (ℚ × ℚ)) :
    (closeCoords (c0 :: rest)).head? = (closeCoords (c0 :: rest)).getLast? ∧
    closeCoords (c0 :: rest) ≠ [] := by
  simp only [closeCoords, List.head?_cons]
  by_cases hl : (c0 :: rest).getLast? = some c0
  · rw [if_pos hl, List.head?_cons, hl]
    exact ⟨rfl, by simp⟩
  · rw [if_neg hl]
    refine ⟨?_, by simp⟩
    rw [List.cons_append, List.head?_cons, ← List.cons_append, List.getLast?_concat]

/-- C8 (confirmed): both zone constructors reject a coordinate list of fewer
than four vertices, and reject (after closing the ring) any polygon the
validity test refuses, each time leaving the zone lists — indeed the whole
service state — unchanged; on success the created zone's stored ring is
closed (first vertex equals last), its active flag is set, and the zone is
appended to the matching list with the other list and the alert ring
untouched. `turf.booleanValid`, being library code, is quantified over as
the parameter `valid`. -/
theorem c8_zone_creation_validation (valid : List (ℚ × ℚ) → Bool) (g : GeoState)
    (name : String) (coords : List (ℚ × ℚ)) (opts : ZoneOptions) (now : Int) :
    (coords.length < 4 →
      addRestrictedZone valid g name coords opts now
          = (g, Except.error "Polygon must have at least 4 coordinates") ∧
      addSafeZone valid g name coords opts now
          = (g, Except.error "Polygon must have at least 4 coordinates")) ∧
    (¬ coords.length < 4 → valid (closeCoords coords) = false →
      addRestrictedZone valid g name coords opts now
          = (g, Except.error "Invalid polygon coordinates") ∧
      addSafeZone valid g name coords opts now
          = (g, Except.error "Invalid polygon coordinates")) ∧
    (∀ g' z, addRestrictedZone valid g name coords opts now = (g', Except.ok z) →
      z.coordinates.head? = z.coordinates.getLast? ∧ z.coordinates ≠ [] ∧
      z.isActive = true ∧ g'.restrictedZones = g.restrictedZones ++ [z] ∧
      g'.safeZones = g.safeZones ∧ g'.alertHistory = g.alertHistory) ∧
    (∀ g' z, addSafeZone valid g name coords opts now = (g', Except.ok z) →
      z.coordinates.head? = z.coordinates.getLast? ∧ z.coordinates ≠ [] ∧
      z.isActive = true ∧ g'.safeZones = g.safeZones ++ [z] ∧
      g'.restrictedZones = g.restrictedZones ∧ g'.alertHistory = g.alertHistory) := by
  refine ⟨?_, ?_, ?_, ?_⟩
  · intro h4
    constructor <;> simp [addRestrictedZone, addSafeZone, h4]
  · intro h4 hval
    constructor <;> simp [addRestrictedZone, addSafeZone, h4, hval]
  · intro g' z h
    by_cases h4 : coords.length < 4
    · simp [addRestrictedZone, h4] at h
    · by_cases hv : valid (closeCoords coords) = true
      · simp only [addRestrictedZone, if_neg h4, hv, Bool.not_true, Bool.false_eq_true,
          if_false, Prod.mk.injEq, Except.ok.injEq] at h
        obtain ⟨hg', hz⟩ := h
        subst hg'
        subst hz
        obtain ⟨c0, rest, hc⟩ : ∃ c0 rest, coords = c0 :: rest := by
          cases coords with
          | nil => simp at h4
          | cons a l => exact ⟨a, l, rfl⟩
        subst hc
        have hcl := closeCoords_closed c0 rest
        exact ⟨hcl.1, hcl.2, rfl, rfl, rfl, rfl⟩
      · have hvf : valid (closeCoords coords) = false := by
          cases hb : valid (closeCoords coords)
          · rfl
          · exact absurd hb hv
        simp [addRestrictedZone, h4, hvf] at h
  · intro g' z h
    by_cases h4 : coords.length < 4
    · simp [addSafeZone, h4] at h
    · by_cases hv : valid (closeCoords coords) = true
      · simp only [addSafeZone, if_neg h4, hv, Bool.not_true, Bool.false_eq_true,
          if_false, Prod.mk.injEq, Except.ok.injEq] at h
        obtain ⟨hg', hz⟩ := h
        subst hg'
        subst hz
        obtain ⟨c0, rest, hc⟩ : ∃ c0 rest, coords = c0 :: rest := by
          cases coords with
          | nil => simp at h4
          | cons a l => exact ⟨a, l, rfl⟩
        subst hc
        have hcl := closeCoords_closed c0 rest
        exact ⟨hcl.1, hcl.2, rfl, rfl, rfl, rfl⟩
      · have hvf : valid (closeCoords coords) = false := by
          cases hb : valid (closeCoords coords)
          · rfl
          · exact absurd hb hv
        simp [addSafeZone, h4, hvf] at h

/-- A validity instantiation accepting every ring (the success case of zone
creation). -/
def alwaysValid : List (ℚ × ℚ) → Bool := fun _ => true

/-- An open four-vertex ring (first vertex not repeated). -/
def c8Coords : List (ℚ × ℚ) := [(0, 0), (0, 10), (10, 10), (10, 0)]

/-- The zone created from `c8Coords` at time 0 with empty options. -/
def c8Zone : Zone :=
  { id := "restricted_" ++ toString (0 : Int), name := "Z",
    coordinates := closeCoords c8Coords, type := "restricted",
    alertLevel := jsOrStr none "high", description := jsOrStr none "",
    isActive := true, createdAt := 0 }

/-- C8, witness: the theorem applied to a three-vertex list (rejected, state
unchanged) and to the successful creation from `c8Coords` (ring closed,
active flag set, zone appended). -/
theorem c8_zone_creation_witness :
    (addRestrictedZone alwaysValid initialGeoState "Z" [((0:ℚ), (0:ℚ)), (0, 1), (1, 1)]
        { alertLevel := none, description := none } 0
      = (initialGeoState, Except.error "Polygon must have at least 4 coordinates") ∧
     addSafeZone alwaysValid initialGeoState "Z" [((0:ℚ), (0:ℚ)), (0, 1), (1, 1)]
        { alertLevel := none, description := none } 0
      = (initialGeoState, Except.error "Polygon must have at least 4 coordinates")) ∧
    (c8Zone.coordinates.head? = c8Zone.coordinates.getLast? ∧ c8Zone.coordinates ≠ [] ∧
     c8Zone.isActive = true ∧
     ({ initialGeoState with restrictedZones := initialGeoState.restrictedZones ++ [c8Zone] }
        : GeoState).restrictedZones = initialGeoState.restrictedZones ++ [c8Zone] ∧
     ({ initialGeoState with restrictedZones := initialGeoState.restrictedZones ++ [c8Zone] }
        : GeoState).safeZones = initialGeoState.safeZones ∧
     ({ initialGeoState with restrictedZones := initialGeoState.restrictedZones ++ [c8Zone] }
        : GeoState).alertHistory = initialGeoState.alertHistory) :=
  ⟨(c8_zone_creation_validation alwaysValid initialGeoState "Z" [((0:ℚ), (0:ℚ)), (0, 1), (1, 1)]
      { alertLevel := none, description := none } 0).1 (by decide),
   (c8_zone_creation_validation alwaysValid initialGeoState "Z" c8Coords
      { alertLevel := none, description := none } 0).2.2.1
     { initialGeoState with restrictedZones := initialGeoState.restrictedZones ++ [c8Zone] }
     c8Zone rfl⟩
